import Mathlib

/-!
Verification of the login flow controller of `src/Frontend/src/auth/ui/LoginScreen.tsx`.

The component state (`step`, `dni`, `code`, `isLoading`, `notification`) is embedded
as an explicit record, extended with the DOM focus (`focusedCell`, standing for the
`codeRefs.current[j]?.focus()` calls), the queue of pending `setTimeout` callbacks
(`timers`, each tagged with its absolute fire time), the current time `now`, a ghost
log `verifyLog` of the arguments passed to `validateCode`, and a counter `loginCalls`
of `onLogin` invocations.  Every handler of the source file becomes a pure state
transformer; every `setTimeout` becomes a `Timer` appended to the queue; the event
loop is modelled by `fireNext`, which fires the earliest due timer.  `LoginStep` is a
string union in TypeScript, so `step` is embedded as a `String`.
-/

namespace LoginFlow

/-- The type field of a toast: success, error or info. -/
inductive NotifType where
  | success
  | error
  | info
deriving DecidableEq

/-- The value held in the `notification` state: `{ message, type }`. -/
structure Notif where
  message : String
  type : Option NotifType
deriving DecidableEq

/-- The pending `setTimeout` callbacks of `LoginScreen.tsx`, one constructor per
callback site, carrying the data the closure captured. -/
inductive TimerKind where
  /-- Model of `setTimeout(() => setNotification(null), 2500)` in `showNotification`. -/
  | notifExpiry
  /-- Model of `setTimeout(() => codeRefs.current[0]?.focus(), 100)` in the step effect. -/
  | focusCell0
  /-- Model of `setTimeout(() => onLogin(...), 2500)` in the step effect for `SUCCESS`. -/
  | loginRedirect
  /-- the 3000 ms camera simulation of `startFacialRecognition`, capturing `cameraFails`. -/
  | cameraProbe (cameraFails : Bool)
  /-- the 1500 ms redirect to `SUCCESS` in the camera success branch. -/
  | facialSuccessRedirect
  /-- the 1500 ms verification simulation of `validateCode`, capturing `enteredCode`. -/
  | codeVerify (enteredCode : String)
  /-- the 1000 ms redirect to `SUCCESS` in the code success branch. -/
  | codeSuccessRedirect
deriving DecidableEq

/-- A scheduled callback together with its absolute fire time. -/
structure Timer where
  fireAt : Nat
  kind : TimerKind
deriving DecidableEq

/-- The embedded component state. -/
structure LoginState where
  step : String
  dni : String
  code : List String
  isLoading : Bool
  notification : Option Notif
  focusedCell : Option Nat
  timers : List Timer
  now : Nat
  verifyLog : List String
  loginCalls : Nat
deriving DecidableEq

/-- The list of six empty cells, the initial (and reset) value of `code`. -/
def emptyCode : List String := ["", "", "", "", "", ""]

/-- The state right after mount: `useState` initial values. -/
def initState : LoginState :=
  { step := "INITIAL", dni := "", code := emptyCode, isLoading := false,
    notification := none, focusedCell := none, timers := [], now := 0,
    verifyLog := [], loginCalls := 0 }

/-- Model of `setTimeout`: append a timer due at `now + delay`. -/
def schedule (delay : Nat) (k : TimerKind) (s : LoginState) : LoginState :=
  { s with timers := s.timers ++ [⟨s.now + delay, k⟩] }

/-- The function `showNotification`: set the notification and schedule its 2500 ms expiry.
The expiry callback `() => setNotification(null)` is unconditional; no call to
`clearTimeout` exists anywhere in the source. -/
def showNotification (message : String) (type : Option NotifType) (s : LoginState) : LoginState :=
  schedule 2500 .notifExpiry { s with notification := some ⟨message, type⟩ }

/-- The setter `setStep`, together with the `useEffect` on `[step, onLogin]`: entering
`MANUAL_CODE` schedules the 100 ms focus, entering `SUCCESS` schedules the
2500 ms `onLogin` redirect.  React bails out when the value is unchanged. -/
def setStep (newStep : String) (s : LoginState) : LoginState :=
  if newStep = s.step then s
  else
    let s1 := { s with step := newStep }
    if newStep = "MANUAL_CODE" then schedule 100 .focusCell0 s1
    else if newStep = "SUCCESS" then schedule 2500 .loginRedirect s1
    else s1

/-- The handler `startFacialRecognition`: move to `FACIAL_RECOGNITION`, raise `isLoading`,
and schedule the 3000 ms camera simulation.  `cameraFails` stands for the
`Math.random() > 0.92` draw, taken as an explicit oracle input. -/
def startFacialRecognition (cameraFails : Bool) (s : LoginState) : LoginState :=
  schedule 3000 (.cameraProbe cameraFails)
    { (setStep "FACIAL_RECOGNITION" s) with isLoading := true }

def dniErrorMsg : String := "El DNI debe tener exactamente 8 dígitos"

def sendCodeMsg (dni : String) : String :=
  "📧 Enviando código a correo asociado al DNI " ++ dni

/-- The handler `handleDniSubmit`: length-8 check on `dni`, error toast and early return on
failure, info toast and transition to `MANUAL_CODE` on success. -/
def handleDniSubmit (s : LoginState) : LoginState :=
  if s.dni.length ≠ 8 then showNotification dniErrorMsg (some .error) s
  else setStep "MANUAL_CODE" (showNotification (sendCodeMsg s.dni) (some .info) s)

def incompleteCodeMsg : String := "Ingrese los 6 dígitos del código"

/-- The function `validateCode`: raise `isLoading`; reject codes shorter than 6 immediately;
otherwise schedule the 1500 ms verification simulation.  The ghost `verifyLog`
records the argument of each invocation. -/
def validateCode (enteredCode : String) (s : LoginState) : LoginState :=
  let s1 := { s with isLoading := true, verifyLog := s.verifyLog ++ [enteredCode] }
  if enteredCode.length < 6 then
    { (showNotification incompleteCodeMsg (some .error) s1) with isLoading := false }
  else
    schedule 1500 (.codeVerify enteredCode) s1

/-- Model of `e.target.value.slice(-1)`: the last character of the raw input, or empty. -/
def sliceLast (raw : String) : String :=
  match raw.data.getLast? with
  | none => ""
  | some c => String.mk [c]

/-- Model of the regex test in `handleCodeChange`: does `value` contain a character outside the digit range? -/
def hasNonDigit (value : String) : Bool :=
  value.data.any (fun c => !c.isDigit)

/-- Model of `codeRefs.current[j]?.focus()`. -/
def focusCell (j : Nat) (s : LoginState) : LoginState :=
  { s with focusedCell := some j }

/-- The handler `handleCodeChange`: clear on empty input (focus moves left when `i > 0`),
reject non-digits without mutation, set the cell on a digit (focus moves right when
`i < 5`), and auto-validate when cell 5 completes the code.  The index is a `Fin 6`
because the six rendered inputs instantiate the callback with `i` in `0..5`. -/
def handleCodeChange (i : Fin 6) (raw : String) (s : LoginState) : LoginState :=
  let value := sliceLast raw
  if value = "" then
    let s1 := { s with code := s.code.set i "" }
    if 0 < i.val then focusCell (i.val - 1) s1 else s1
  else if hasNonDigit value then s
  else
    let newCode := s.code.set i value
    let s1 := { s with code := newCode }
    let s2 := if i.val < 5 then focusCell (i.val + 1) s1 else s1
    if (i.val == 5) && newCode.all (fun d => d != "") then
      validateCode (String.join newCode) s2
    else s2

def cameraErrMsg : String := "❌ Error al acceder a la cámara. Cambiando a acceso manual..."
def facialOkMsg : String := "✅ Reconocimiento facial exitoso"
def codeOkMsg : String := "✅ Código correcto"
def codeBadMsg : String := "❌ Código incorrecto. Intente de nuevo"

/-- The body of each `setTimeout` callback, exactly as written in the source.
None of them inspects the current `step` before mutating. -/
def fireTimer (k : TimerKind) (s : LoginState) : LoginState :=
  match k with
  | .notifExpiry => { s with notification := none }
  | .focusCell0 => focusCell 0 s
  | .loginRedirect => { s with loginCalls := s.loginCalls + 1 }
  | .cameraProbe cameraFails =>
      let s1 := { s with isLoading := false }
      if cameraFails then
        setStep "MANUAL_DNI" (showNotification cameraErrMsg (some .error) s1)
      else
        schedule 1500 .facialSuccessRedirect (showNotification facialOkMsg (some .success) s1)
  | .facialSuccessRedirect => setStep "SUCCESS" s
  | .codeVerify enteredCode =>
      let s1 := { s with isLoading := false }
      if enteredCode = "123456" then
        schedule 1000 .codeSuccessRedirect (showNotification codeOkMsg (some .success) s1)
      else
        focusCell 0 { (showNotification codeBadMsg (some .error) s1) with code := emptyCode }
  | .codeSuccessRedirect => setStep "SUCCESS" s

/-- Earliest fire time among the timers already due at `now`. -/
def minDue (now : Nat) : List Timer → Option Nat
  | [] => none
  | t :: ts =>
      let r := minDue now ts
      if t.fireAt ≤ now then
        match r with
        | none => some t.fireAt
        | some m => some (min t.fireAt m)
      else r

/-- Remove the first timer whose fire time is `a` (stable in scheduling order). -/
def extractAt (a : Nat) : List Timer → Option (Timer × List Timer)
  | [] => none
  | t :: ts =>
      if t.fireAt = a then some (t, ts)
      else
        match extractAt a ts with
        | none => none
        | some (u, us) => some (u, t :: us)

/-- One event-loop step: fire the due timer with the earliest fire time
(scheduling order breaks ties), if any timer is due. -/
def fireNext (s : LoginState) : LoginState :=
  match minDue s.now s.timers with
  | none => s
  | some m =>
      match extractAt m s.timers with
      | none => s
      | some (t, rest) => fireTimer t.kind { s with timers := rest }

/-- The user events, one per handler that `renderStep` wires into a view. -/
inductive Event where
  /-- the handler `onStartFacialRecognition` (from `InitialView`), with the random draw made explicit. -/
  | startFacial (cameraFails : Bool)
  /-- the handler `onNavigateToManualDNI` (from `InitialView`). -/
  | chooseManual
  /-- the handler `onGoBack`, wired per step in `renderStep`. -/
  | goBack
  /-- the setter `setDni` (from `ManualDniView`). -/
  | setDniInput (v : String)
  /-- the handler `onSubmit` (from `ManualDniView`). -/
  | dniSubmit
  /-- the handler `handleCodeChange` (from `ManualCodeView`). -/
  | codeChange (i : Fin 6) (raw : String)
  /-- the call `validateCode()` with its default argument (from `ManualCodeView`). -/
  | validateClick
deriving DecidableEq

/-- Dispatch of a user event, guarded by the step whose rendered view wires the
handler in `renderStep` (an event aimed at a view that is not on screen is a no-op). -/
def handleEvent (e : Event) (s : LoginState) : LoginState :=
  match e with
  | .startFacial f => if s.step = "INITIAL" then startFacialRecognition f s else s
  | .chooseManual => if s.step = "INITIAL" then setStep "MANUAL_DNI" s else s
  | .goBack =>
      if s.step = "FACIAL_RECOGNITION" then setStep "INITIAL" s
      else if s.step = "MANUAL_DNI" then setStep "INITIAL" s
      else if s.step = "MANUAL_CODE" then setStep "MANUAL_DNI" s
      else s
  | .setDniInput v => if s.step = "MANUAL_DNI" then { s with dni := v } else s
  | .dniSubmit => if s.step = "MANUAL_DNI" then handleDniSubmit s else s
  | .codeChange i raw => if s.step = "MANUAL_CODE" then handleCodeChange i raw s else s
  | .validateClick => if s.step = "MANUAL_CODE" then validateCode (String.join s.code) s else s

/-- A step of the whole system: a user event, the clock advancing, or the event
loop firing the next due timer. -/
inductive Action where
  | user (e : Event)
  | advanceTo (t : Nat)
  | fire
deriving DecidableEq

def stepAction (s : LoginState) : Action → LoginState
  | .user e => handleEvent e s
  | .advanceTo t => { s with now := max s.now t }
  | .fire => fireNext s

/-- Run a list of actions from a state. -/
def run (s : LoginState) (as : List Action) : LoginState :=
  as.foldl stepAction s

/-- The result of `renderStep`, one constructor per view with the props the view
receives from the state. -/
inductive View where
  | initialView
  | facialRecognitionView (isLoading : Bool)
  | manualDniView (dni : String)
  | manualCodeView (code : List String) (isLoading : Bool)
  | successView
deriving DecidableEq

/-- The renderer `renderStep`: the `switch (step)` of the source, with `default: return null`.
A total function: no branch can raise. -/
def renderStep (s : LoginState) : Option View :=
  if s.step = "INITIAL" then some .initialView
  else if s.step = "FACIAL_RECOGNITION" then some (.facialRecognitionView s.isLoading)
  else if s.step = "MANUAL_DNI" then some (.manualDniView s.dni)
  else if s.step = "MANUAL_CODE" then some (.manualCodeView s.code s.isLoading)
  else if s.step = "SUCCESS" then some .successView
  else none

end LoginFlow

namespace LoginFlow

/-- A cell of `code` as the source maintains it: empty, or one digit character. -/
def cellOk (c : String) : Bool :=
  (c == "") || ((c.length == 1) && c.data.all Char.isDigit)

/-- The invariant on the `code` sequence: length six, each cell `cellOk`. -/
def codeCellsOk (l : List String) : Bool :=
  (l.length == 6) && l.all cellOk

/-- A canonical state on the `MANUAL_CODE` step: the state reached right after a
valid DNI submission once its toasts and focus timer have been consumed. -/
def mCodeState : LoginState :=
  { step := "MANUAL_CODE", dni := "12345678", code := emptyCode, isLoading := false,
    notification := none, focusedCell := some 0, timers := [], now := 0,
    verifyLog := [], loginCalls := 0 }

/-- A `MANUAL_DNI` state holding a seven-character DNI. -/
def dniState7 : LoginState :=
  { initState with step := "MANUAL_DNI", dni := "1234567" }

/-- A `MANUAL_DNI` state holding an eight-character, non-numeric DNI. -/
def dniState8 : LoginState :=
  { initState with step := "MANUAL_DNI", dni := "abcd5678" }

/-- A state whose `step` lies outside the `LoginStep` union. -/
def bogusState : LoginState :=
  { initState with step := "LOGOUT" }

end LoginFlow

namespace LoginFlow

theorem codeCellsOk_set (l : List String) (v : String) (i : Nat)
    (hl : codeCellsOk l = true) (hv : cellOk v = true) :
    codeCellsOk (l.set i v) = true := by
  simp only [codeCellsOk, Bool.and_eq_true, beq_iff_eq, List.all_eq_true] at hl ⊢
  refine ⟨by simp [List.length_set, hl.1], ?_⟩
  intro x hx
  rcases List.mem_or_eq_of_mem_set hx with hmem | hEq
  · exact hl.2 x hmem
  · subst hEq; exact hv

theorem code_setStep (x : String) (s : LoginState) : (setStep x s).code = s.code := by
  unfold setStep schedule
  split_ifs <;> rfl

theorem code_showNotification (m : String) (t : Option NotifType) (s : LoginState) :
    (showNotification m t s).code = s.code := rfl

theorem code_validateCode (c : String) (s : LoginState) :
    (validateCode c s).code = s.code := by
  unfold validateCode showNotification schedule
  split_ifs <;> rfl

theorem code_handleDniSubmit (s : LoginState) : (handleDniSubmit s).code = s.code := by
  unfold handleDniSubmit
  split_ifs with h
  · rfl
  · rw [code_setStep, code_showNotification]

theorem code_startFacialRecognition (f : Bool) (s : LoginState) :
    (startFacialRecognition f s).code = s.code := by
  unfold startFacialRecognition schedule
  simp [code_setStep]

theorem codeOk_handleCodeChange (i : Fin 6) (raw : String) (s : LoginState)
    (hs : codeCellsOk s.code = true) :
    codeCellsOk (handleCodeChange i raw s).code = true := by
  rcases hL : raw.data.getLast? with _ | c
  · have hv : sliceLast raw = "" := by simp [sliceLast, hL]
    simp only [handleCodeChange, hv, if_pos]
    split_ifs <;>
      simpa [focusCell] using codeCellsOk_set s.code "" i.val hs (by rfl)
  · have hv : sliceLast raw = String.mk [c] := by simp [sliceLast, hL]
    have hne : ¬ (String.mk [c] = "") := by simp [String.ext_iff]
    by_cases hd : c.isDigit
    · have hnd : hasNonDigit (String.mk [c]) = false := by simp [hasNonDigit, hd]
      have hcell : cellOk (String.mk [c]) = true := by
        simp [cellOk, String.length, hd]
      simp only [handleCodeChange, hv, if_neg hne, hnd, Bool.false_eq_true, if_false]
      split_ifs <;>
        first
          | (rw [code_validateCode]
             simpa [focusCell] using codeCellsOk_set s.code (String.mk [c]) i.val hs hcell)
          | simpa [focusCell] using codeCellsOk_set s.code (String.mk [c]) i.val hs hcell
    · have hnd : hasNonDigit (String.mk [c]) = true := by simp [hasNonDigit, hd]
      simp only [handleCodeChange, hv, if_neg hne, hnd, if_true]
      exact hs

theorem codeOk_fireTimer (k : TimerKind) (s : LoginState)
    (hs : codeCellsOk s.code = true) :
    codeCellsOk (fireTimer k s).code = true := by
  cases k with
  | notifExpiry => exact hs
  | focusCell0 => exact hs
  | loginRedirect => exact hs
  | cameraProbe f =>
      simp only [fireTimer]
      split_ifs
      · rw [code_setStep, code_showNotification]; exact hs
      · simpa [schedule, code_showNotification] using hs
  | facialSuccessRedirect =>
      simp only [fireTimer]; rw [code_setStep]; exact hs
  | codeVerify c =>
      simp only [fireTimer]
      split_ifs
      · simpa [schedule, code_showNotification] using hs
      · simp [focusCell, emptyCode, codeCellsOk, cellOk]
  | codeSuccessRedirect =>
      simp only [fireTimer]; rw [code_setStep]; exact hs

theorem codeOk_fireNext (s : LoginState) (hs : codeCellsOk s.code = true) :
    codeCellsOk (fireNext s).code = true := by
  unfold fireNext
  cases h1 : minDue s.now s.timers with
  | none => simp only [h1]; exact hs
  | some m =>
      simp only [h1]
      cases h2 : extractAt m s.timers with
      | none => simp only [h2]; exact hs
      | some p =>
          obtain ⟨t, rest⟩ := p
          simp only [h2]
          exact codeOk_fireTimer t.kind _ hs

theorem codeOk_handleEvent (e : Event) (s : LoginState) (hs : codeCellsOk s.code = true) :
    codeCellsOk (handleEvent e s).code = true := by
  cases e with
  | startFacial f =>
      simp only [handleEvent]; split_ifs
      · rw [code_startFacialRecognition]; exact hs
      · exact hs
  | chooseManual =>
      simp only [handleEvent]; split_ifs
      · rw [code_setStep]; exact hs
      · exact hs
  | goBack =>
      simp only [handleEvent]
      split_ifs <;> first | (rw [code_setStep]; exact hs) | exact hs
  | setDniInput v =>
      simp only [handleEvent]; split_ifs <;> exact hs
  | dniSubmit =>
      simp only [handleEvent]; split_ifs
      · rw [code_handleDniSubmit]; exact hs
      · exact hs
  | codeChange i raw =>
      simp only [handleEvent]; split_ifs
      · exact codeOk_handleCodeChange i raw s hs
      · exact hs
  | validateClick =>
      simp only [handleEvent]; split_ifs
      · rw [code_validateCode]; exact hs
      · exact hs

theorem codeOk_stepAction (s : LoginState) (a : Action) (hs : codeCellsOk s.code = true) :
    codeCellsOk (stepAction s a).code = true := by
  cases a with
  | user e => exact codeOk_handleEvent e s hs
  | advanceTo t => exact hs
  | fire => exact codeOk_fireNext s hs

theorem codeOk_run (as : List Action) (s : LoginState) (hs : codeCellsOk s.code = true) :
    codeCellsOk (run s as).code = true := by
  induction as generalizing s with
  | nil => exact hs
  | cons a as ih =>
      rw [run, List.foldl_cons]
      exact ih _ (codeOk_stepAction s a hs)

end LoginFlow

namespace LoginFlow

/-- A trace that enters facial recognition at t = 0 (with the camera draw set to
fail) and invokes go back at t = 1000, before the 3000 ms probe delay elapses. -/
def c1GoBackTrace : List Action :=
  [.user (.startFacial true), .advanceTo 1000, .user .goBack]

/-- The same trace continued to t = 3000, where the stale camera probe fires. -/
def c1FullTrace : List Action :=
  c1GoBackTrace ++ [.advanceTo 3000, .fire]

/-- Claim C1: the claim states that a go back invoked from FacialRecognition before
the 3000 ms camera probe elapses makes the later probe outcome a no-op on step,
notification and isLoading.  The code has no such cancellation: after go back has
restored step to INITIAL, the probe callback still fires, clears isLoading, raises
the error toast and forces step to MANUAL_DNI.  This theorem evaluates the code on
that failing trace, refuting the claim. -/
theorem c1_staleCameraProbe_mutatesAfterGoBack :
    (run initState c1GoBackTrace).step = "INITIAL" ∧
    (run initState c1GoBackTrace).isLoading = true ∧
    (run initState c1GoBackTrace).notification = none ∧
    (run initState c1FullTrace).step = "MANUAL_DNI" ∧
    (run initState c1FullTrace).isLoading = false ∧
    (run initState c1FullTrace).notification = some ⟨cameraErrMsg, some .error⟩ := by
  decide

/-- The state after show(A, info) at t = 0 and show(B, error) at t = 1000. -/
def c2AfterSecondShow : LoginState :=
  showNotification "B" (some .error)
    { showNotification "A" (some .info) initState with now := 1000 }

/-- The state after the earliest pending expiry fires, at t = 2500. -/
def c2AfterFirstExpiry : LoginState :=
  fireNext { c2AfterSecondShow with now := 2500 }

/-- The state after the remaining expiry fires, at t = 3500. -/
def c2AfterSecondExpiry : LoginState :=
  fireNext { c2AfterFirstExpiry with now := 3500 }

/-- Claim C2: the claim states that show(B, error) before the expiry of
show(A, info) cancels the pending expiry of A, so that only B is visible and
exactly one expiry event fires thereafter.  The code never cancels the earlier
timer: right after the second call B is indeed the only visible toast, but two
expiry timers are pending, the one of A fires at t = 2500 and clears B early
(1500 ms after B was shown instead of 2500 ms), and a second expiry fires at
t = 3500.  This theorem evaluates the code on that pair of calls, refuting the
claim. -/
theorem c2_secondShow_doesNotCancelFirstExpiry :
    c2AfterSecondShow.notification = some ⟨"B", some .error⟩ ∧
    c2AfterSecondShow.timers = [⟨2500, .notifExpiry⟩, ⟨3500, .notifExpiry⟩] ∧
    c2AfterFirstExpiry.notification = none ∧
    c2AfterFirstExpiry.timers = [⟨3500, .notifExpiry⟩] ∧
    c2AfterSecondExpiry.notification = none ∧
    c2AfterSecondExpiry.timers = [] := by
  decide

/-- The state after `validateCode` was invoked on `c` in `mCodeState` and its
1500 ms verification timer has fired. -/
def c3VerifyFired (c : String) : LoginState :=
  fireNext { validateCode c mCodeState with now := 1500 }

/-- The state after the 1000 ms success redirect of the matching code also fired. -/
def c3AfterRedirect : LoginState :=
  fireNext { c3VerifyFired "123456" with now := 2500 }

/-- Claim C3: invoking the code verification probe on the reference code 123456
notifies success and transitions the step to SUCCESS after its delay; invoking it
on any other six-character code notifies error, clears all six cells, resets the
focus to cell 0, and leaves the step on MANUAL_CODE. -/
theorem c3_validateCode_outcomes :
    ((c3VerifyFired "123456").notification = some ⟨codeOkMsg, some .success⟩ ∧
     (c3VerifyFired "123456").step = "MANUAL_CODE" ∧
     c3AfterRedirect.step = "SUCCESS") ∧
    ∀ c : String, c.length = 6 → c ≠ "123456" →
      (c3VerifyFired c).notification = some ⟨codeBadMsg, some .error⟩ ∧
      (c3VerifyFired c).code = emptyCode ∧
      (c3VerifyFired c).focusedCell = some 0 ∧
      (c3VerifyFired c).step = "MANUAL_CODE" := by
  refine ⟨by decide, ?_⟩
  intro c hlen hne
  simp [c3VerifyFired, validateCode, hlen, hne, fireNext, minDue, extractAt, fireTimer,
    showNotification, schedule, focusCell, mCodeState]

/-- Witness for claim C3: the mismatch branch instantiated at the concrete
six-character code 654321. -/
theorem c3_validateCode_outcomes_witness :
    ("654321".length = 6 ∧ "654321" ≠ "123456") ∧
    ((c3VerifyFired "654321").notification = some ⟨codeBadMsg, some .error⟩ ∧
     (c3VerifyFired "654321").code = emptyCode ∧
     (c3VerifyFired "654321").focusedCell = some 0 ∧
     (c3VerifyFired "654321").step = "MANUAL_CODE") :=
  ⟨⟨by decide, by decide⟩, c3_validateCode_outcomes.2 "654321" (by decide) (by decide)⟩

/-- Entering the digits 1..5 into cells 0..4 of an all-empty code, in order. -/
def c4FirstFive : List Action :=
  [.user (.codeChange 0 "1"), .user (.codeChange 1 "2"), .user (.codeChange 2 "3"),
   .user (.codeChange 3 "4"), .user (.codeChange 4 "5")]

/-- The same entry continued with the digit 6 into cell 5. -/
def c4AllSix : List Action :=
  c4FirstFive ++ [.user (.codeChange 5 "6")]

/-- Claim C4: starting from all cells empty, entering the digits 1..6 into cells
0..5 in order invokes the verification probe exactly once, with argument exactly
the concatenation 123456, and only on the update at index 5: after the first five
digits the ghost log of `validateCode` invocations is empty and no verification
timer is pending; after the sixth the log holds exactly the single entry 123456
and exactly one verification timer is pending, carrying that string. -/
theorem c4_autoSubmit_once :
    (run mCodeState c4FirstFive).verifyLog = [] ∧
    (run mCodeState c4FirstFive).timers = [] ∧
    (run mCodeState c4AllSix).verifyLog = ["123456"] ∧
    (run mCodeState c4AllSix).timers = [⟨1500, .codeVerify "123456"⟩] := by
  decide

/-- Claim C5: for every cell index in 0..5, every state and every input character
that is neither a digit nor the empty backspace signal, `handleCodeChange` leaves
the whole six-cell code sequence unchanged. -/
theorem c5_nonDigit_rejectedWithoutMutation (c : Char) (hc : c.isDigit = false)
    (i : Fin 6) (s : LoginState) :
    (handleCodeChange i (String.mk [c]) s).code = s.code := by
  simp [handleCodeChange, sliceLast, hasNonDigit, hc, String.ext_iff]

/-- Witness for claim C5: the letter a typed into cell 0 of the initial state. -/
theorem c5_nonDigit_rejectedWithoutMutation_witness :
    ('a'.isDigit = false) ∧
    (handleCodeChange 0 (String.mk ['a']) initState).code = initState.code :=
  ⟨by decide, c5_nonDigit_rejectedWithoutMutation 'a' (by decide) 0 initState⟩

/-- Claim C6: from MANUAL_DNI, submitting a DNI whose length is not 8 raises the
error toast and leaves step, dni, code and isLoading unchanged; submitting a DNI
of length exactly 8 raises the info toast and transitions to MANUAL_CODE.  The
check is exactly on the length, with no digit-only content condition. -/
theorem c6_dniSubmit_lengthEightGate (s : LoginState) (h : s.step = "MANUAL_DNI") :
    (s.dni.length ≠ 8 →
      (handleDniSubmit s).notification = some ⟨dniErrorMsg, some .error⟩ ∧
      (handleDniSubmit s).step = "MANUAL_DNI" ∧
      (handleDniSubmit s).dni = s.dni ∧
      (handleDniSubmit s).code = s.code ∧
      (handleDniSubmit s).isLoading = s.isLoading) ∧
    (s.dni.length = 8 →
      (handleDniSubmit s).notification = some ⟨sendCodeMsg s.dni, some .info⟩ ∧
      (handleDniSubmit s).step = "MANUAL_CODE" ∧
      (handleDniSubmit s).dni = s.dni ∧
      (handleDniSubmit s).code = s.code) := by
  constructor
  · intro hl
    simp [handleDniSubmit, hl, showNotification, schedule, h]
  · intro hl
    simp [handleDniSubmit, hl, showNotification, schedule, setStep, h]

/-- Witness for claim C6: the seven-character DNI 1234567 is rejected in place and
the eight-character, partly alphabetic DNI abcd5678 transitions to MANUAL_CODE. -/
theorem c6_dniSubmit_lengthEightGate_witness :
    (dniState7.step = "MANUAL_DNI" ∧ dniState7.dni.length ≠ 8 ∧
      (handleDniSubmit dniState7).notification = some ⟨dniErrorMsg, some .error⟩ ∧
      (handleDniSubmit dniState7).step = "MANUAL_DNI") ∧
    (dniState8.step = "MANUAL_DNI" ∧ dniState8.dni.length = 8 ∧
      (handleDniSubmit dniState8).notification = some ⟨sendCodeMsg dniState8.dni, some .info⟩ ∧
      (handleDniSubmit dniState8).step = "MANUAL_CODE") := by
  have h7 := c6_dniSubmit_lengthEightGate dniState7 rfl
  have h8 := c6_dniSubmit_lengthEightGate dniState8 rfl
  refine ⟨⟨rfl, by decide, ?_, ?_⟩, ⟨rfl, by decide, ?_, ?_⟩⟩
  · exact (h7.1 (by decide)).1
  · exact (h7.1 (by decide)).2.1
  · exact (h8.2 (by decide)).1
  · exact (h8.2 (by decide)).2.1

/-- Claim C7: invoking go back lands exactly on the predecessor wired by
`renderStep` — FACIAL_RECOGNITION and MANUAL_DNI go back to INITIAL, MANUAL_CODE
goes back to MANUAL_DNI — and on no other step; steps without a go back handler
are left unchanged. -/
theorem c7_goBack_targets (s : LoginState) :
    (handleEvent .goBack s).step =
      (if s.step = "FACIAL_RECOGNITION" then "INITIAL"
       else if s.step = "MANUAL_DNI" then "INITIAL"
       else if s.step = "MANUAL_CODE" then "MANUAL_DNI"
       else s.step) := by
  simp only [handleEvent]
  split_ifs with h1 h2 h3 <;> simp [setStep, schedule, *]

/-- Claim C8: in every state reachable from the mount state by any sequence of
user events, clock advances and timer firings, the code sequence has length
exactly six and every cell is either empty or a single digit character. -/
theorem c8_code_invariant (as : List Action) :
    codeCellsOk (run initState as).code = true :=
  codeOk_run as initState (by decide)

/-- Claim C9: for every step value outside the five members of the LoginStep
union, `renderStep` returns none, the image of the default branch of the switch;
being a total function into an option type, it can raise no fault. -/
theorem c9_unknownStep_rendersNone (s : LoginState)
    (h : s.step ∉ (["INITIAL", "FACIAL_RECOGNITION", "MANUAL_DNI", "MANUAL_CODE",
        "SUCCESS"] : List String)) :
    renderStep s = none := by
  simp only [List.mem_cons, List.mem_singleton, not_or] at h
  obtain ⟨h1, h2, h3, h4, h5, _⟩ := h
  simp [renderStep, h1, h2, h3, h4, h5]

/-- Witness for claim C9: a state carrying the out-of-union step value LOGOUT. -/
theorem c9_unknownStep_rendersNone_witness :
    (bogusState.step ∉ (["INITIAL", "FACIAL_RECOGNITION", "MANUAL_DNI", "MANUAL_CODE",
        "SUCCESS"] : List String)) ∧
    renderStep bogusState = none :=
  ⟨by decide, c9_unknownStep_rendersNone bogusState (by decide)⟩

/-- Claim C10: go back only moves the step; it preserves the dni string, every
entered code cell, the loading flag and the visible notification, whatever the
current step is. -/
theorem c10_goBack_frame (s : LoginState) :
    (handleEvent .goBack s).dni = s.dni ∧
    (handleEvent .goBack s).code = s.code ∧
    (handleEvent .goBack s).isLoading = s.isLoading ∧
    (handleEvent .goBack s).notification = s.notification := by
  simp only [handleEvent]
  split_ifs <;> simp [setStep, schedule] <;> split_ifs <;> simp

end LoginFlow
